import Mathlib

/-!
Verification of the Conto contact-center simulator (src/conto).

The embedding mirrors the Python source shallowly: the SimPy environment is
replaced by an explicit virtual-time parameter `now : ℚ`, exceptions become
`Option PyExn` results threaded next to the updated state, and random draws
become explicit parameters.  Python stores entity statuses either as `Enum`
members (the values set directly in `__init__`) or as plain strings (the
values stored by the validated property setters); Python `==` between an
`Enum` member and a string is `False`, which the `PyVal` type and `pyEq`
reproduce exactly.
-/

namespace Conto

/-- The `Agent.AgentStatus` enum (agent.py lines 24-30). -/
inductive AgentStatus where
  | AVAILABLE
  | BUSY
  | NOT_AVAILABLE
  | OFFLINE
  | WRAP_UP
deriving DecidableEq, Repr

/-- The `value` string of each `AgentStatus` member. -/
def AgentStatus.value : AgentStatus → String
  | .AVAILABLE => "available"
  | .BUSY => "busy"
  | .NOT_AVAILABLE => "not_available"
  | .OFFLINE => "offline"
  | .WRAP_UP => "wrap_up"

/-- Iteration order of `AgentStatus` members (declaration order). -/
def AgentStatus.members : List AgentStatus :=
  [.AVAILABLE, .BUSY, .NOT_AVAILABLE, .OFFLINE, .WRAP_UP]

/-- The `Contact.ContactStatus` enum (contact.py lines 29-36). -/
inductive ContactStatus where
  | ARRIVAL
  | QUEUED
  | ABANDONED
  | RINGING
  | IN_PROGRESS
  | COMPLETED
deriving DecidableEq, Repr

/-- The `value` string of each `ContactStatus` member. -/
def ContactStatus.value : ContactStatus → String
  | .ARRIVAL => "arrival"
  | .QUEUED => "queued"
  | .ABANDONED => "abandoned"
  | .RINGING => "ringing"
  | .IN_PROGRESS => "in_progress"
  | .COMPLETED => "completed"

/-- Iteration order of `ContactStatus` members. -/
def ContactStatus.members : List ContactStatus :=
  [.ARRIVAL, .QUEUED, .ABANDONED, .RINGING, .IN_PROGRESS, .COMPLETED]

/-- The `ContactType` enum (contact_type.py). -/
inductive ContactType where
  | CALL
  | CHAT
  | EMAIL
deriving DecidableEq, Repr

/-- The `value` string of each `ContactType` member. -/
def ContactType.value : ContactType → String
  | .CALL => "call"
  | .CHAT => "chat"
  | .EMAIL => "email"

/-- Iteration order of `ContactType` members. -/
def ContactType.members : List ContactType :=
  [.CALL, .CHAT, .EMAIL]

/-- The `ContactCenter.Skills` enum (contact_center.py lines 27-31). -/
inductive Skills where
  | CUSTOMER_SERVICE
  | SALES
  | INTERNATIONAL
deriving DecidableEq, Repr

/-- The `value` string of each `Skills` member. -/
def Skills.value : Skills → String
  | .CUSTOMER_SERVICE => "cs"
  | .SALES => "sales"
  | .INTERNATIONAL => "international"

/-- Iteration order of `Skills` members. -/
def Skills.members : List Skills :=
  [.CUSTOMER_SERVICE, .SALES, .INTERNATIONAL]

/-- Exceptions the embedded code can raise. -/
inductive PyExn where
  | valueError
  | attributeError
deriving DecidableEq, Repr

/-- Python values that can be stored in a status / type / skill slot:
either a plain string or an `Enum` member (or `None`). -/
inductive PyVal where
  | str (s : String)
  | agentStatus (m : AgentStatus)
  | contactStatus (m : ContactStatus)
  | contactType (m : ContactType)
  | pynone
deriving DecidableEq, Repr

/-- Python `==` on these values: string-to-string compares the text, enum
member to enum member is member identity, and every cross-kind comparison
(in particular `Enum` member vs the string of its `.value`, and anything vs
`None`) is `False`. -/
def pyEq : PyVal → PyVal → Bool
  | .str a, .str b => a == b
  | .agentStatus a, .agentStatus b => a == b
  | .contactStatus a, .contactStatus b => a == b
  | .contactType a, .contactType b => a == b
  | .pynone, .pynone => true
  | _, _ => false

/-- The `Agent` instance state as assigned by `Agent.__init__` (agent.py lines
32-49); `env` and `logger` are the ambient simulation environment, and the
random name generation is excluded collaborator code, so `name` is a
parameter.  Note `__init__` assigns exactly these attributes: there is no
`proficiency` and no `statistics` attribute. -/
structure Agent where
  id : Int
  name : String
  skills : Option (List String)
  _status : PyVal
  last_status_change : ℚ
deriving DecidableEq, Repr

/-- The `Agent.__init__` with the default arguments
(`status=AgentStatus.AVAILABLE`, `skills=None`): the initial status is the
enum member itself, assigned directly to `self._status` without going
through the setter, and `last_status_change = env.now`. -/
def Agent.init (now : ℚ) (agent_id : Int) : Agent :=
  { id := agent_id
    name := "Agent"
    skills := none
    _status := PyVal.agentStatus AgentStatus.AVAILABLE
    last_status_change := now }

/-- The validity check of the `Agent.status` setter (agent.py line 79):
`any(value == s.value for s in self.AgentStatus)` — each `s.value` is a
plain string, so only the five status strings pass. -/
def Agent.isValidStatus (v : PyVal) : Bool :=
  AgentStatus.members.any (fun s => pyEq v (PyVal.str s.value))

/-- The `Agent.status` setter (agent.py lines 76-99).  Returns the updated
agent, whether `env.process(self._start_wrap_up_timer())` was started, and
the exception raised (if any).  On a valid value it stores the value and
stamps `last_status_change = env.now`, then branches on
`self._status != Agent.AgentStatus.WRAP_UP` — comparing the just-stored
value against the enum *member*.  In the wrap-up branch the setter starts
the timer process and then runs `self.status = Agent.AgentStatus.AVAILABLE`;
that nested assignment passes an enum member, which fails the validity
check, so it is unfolded one step here to its effect: raise `ValueError`
with the state left at the already-stored value. -/
def Agent.statusSet (a : Agent) (v : PyVal) (now : ℚ) :
    Agent × Bool × Option PyExn :=
  if Agent.isValidStatus v then
    let a1 : Agent := { a with _status := v, last_status_change := now }
    if !pyEq a1._status (PyVal.agentStatus AgentStatus.WRAP_UP) then
      (a1, false, none)
    else
      (a1, true, some PyExn.valueError)
  else
    (a, false, some PyExn.valueError)

/-- The body of `Agent._start_wrap_up_timer` after its timeout expires
(agent.py line 69): `self.status = Agent.AgentStatus.AVAILABLE` — the value
assigned is the enum member, not its string. -/
def Agent.wrapUpTimerExpire (a : Agent) (now : ℚ) :
    Agent × Bool × Option PyExn :=
  Agent.statusSet a (PyVal.agentStatus AgentStatus.AVAILABLE) now

/-- Claim C1: an accepted status assignment to WRAP_UP is claimed to
schedule a wrap-up timer whose expiry makes the agent AVAILABLE again.  In
the code the accepted assignment stores the *string* `wrap_up`, and the
branch condition of the setter compares that string with the enum member
`AgentStatus.WRAP_UP`, which is never equal in Python — so the branch that
starts the wrap-up timer is dead: the assignment stores the value, stamps
the time, starts no timer and raises nothing, and the agent stays in
`wrap_up`.  Moreover, the timer expiry body itself (were a timer ever
running) assigns the enum member `AgentStatus.AVAILABLE`, which the setter
rejects with `ValueError`, leaving the status unchanged. -/
theorem claim1_wrap_up_timer_never_started (a : Agent) (now : ℚ) :
    Agent.statusSet a (PyVal.str "wrap_up") now =
      ({ a with _status := PyVal.str "wrap_up", last_status_change := now },
        false, none) ∧
    Agent.wrapUpTimerExpire a now = (a, false, some PyExn.valueError) := by
  constructor
  · rfl
  · rfl

/-- The `Contact` instance state as assigned by `Contact.__init__` (contact.py
lines 44-93); `env`, `logger`, `contact_center` and the two spawned
processes (`abandon_process`, `arrival`) are modelled separately. -/
structure Contact where
  id : Int
  _contact_type : PyVal
  _skill : PyVal
  avg_handle_time : ℚ
  avg_hold_time : ℚ
  hold_probability : ℚ
  abandon_timing : ℚ
  avg_wrap_up_time : ℚ
  arrival_time : ℚ
  answer_time : Option ℚ
  customer_id : Int
  handled_by : Option Agent
  duration : ℚ
  hold_count : Nat
  hold_duration : ℚ
  wait_time : ℚ
  _status : PyVal
deriving DecidableEq, Repr

/-- The validity check of the `Contact.status` setter (contact.py line
114). -/
def Contact.isValidStatus (v : PyVal) : Bool :=
  ContactStatus.members.any (fun s => pyEq v (PyVal.str s.value))

/-- The `Contact.status` setter (contact.py lines 111-118): store the value
if valid, otherwise raise `ValueError` leaving the state untouched. -/
def Contact.statusSet (c : Contact) (v : PyVal) : Contact × Option PyExn :=
  if Contact.isValidStatus v then
    ({ c with _status := v }, none)
  else
    (c, some PyExn.valueError)

/-- The validity check of the `Contact.contact_type` setter (contact.py
line 152). -/
def Contact.isValidContactType (v : PyVal) : Bool :=
  ContactType.members.any (fun s => pyEq v (PyVal.str s.value))

/-- The `Contact.contact_type` setter (contact.py lines 149-156). -/
def Contact.contactTypeSet (c : Contact) (v : PyVal) :
    Contact × Option PyExn :=
  if Contact.isValidContactType v then
    ({ c with _contact_type := v }, none)
  else
    (c, some PyExn.valueError)

/-- The `Contact.skill` setter (contact.py lines 125-142): `None` is stored
unconditionally; without a contact center any value is stored unvalidated;
with one, the value must be one of the `Skills` values of the center. -/
def Contact.skillSet (c : Contact) (v : PyVal) (has_center : Bool) :
    Contact × Option PyExn :=
  if v == PyVal.pynone then
    ({ c with _skill := v }, none)
  else if !has_center then
    ({ c with _skill := v }, none)
  else if Skills.members.any (fun s => pyEq v (PyVal.str s.value)) then
    ({ c with _skill := v }, none)
  else
    (c, some PyExn.valueError)

/-- The `Contact.__init__` (contact.py lines 44-93) with the default timings
`(avg_handle_time, avg_hold_time, avg_abandon_time, avg_wrap_up_time) =
(300, 30, 120, 60)` and default `skill=None`.  `weibull_draw` is the
`np.random.weibull(1.5)` sample, so `abandon_timing = 120 * weibull_draw`.
The constructor routes `contact_type` and the initial `arrival` status
through their setters (each starting from `None`), exactly as the source
does; the spawned abandon-timer and arrival processes are embedded as
`Contact.startAbandonTimerStep` and `Contact.arrivalStep`. -/
def Contact.init (now : ℚ) (contact_id : Int) (contact_type : PyVal)
    (customer_id : Int) (hold_probability : ℚ) (weibull_draw : ℚ) :
    Except PyExn Contact :=
  let c0 : Contact :=
    { id := contact_id
      _contact_type := PyVal.pynone
      _skill := PyVal.pynone
      avg_handle_time := 300
      avg_hold_time := 30
      hold_probability := hold_probability
      abandon_timing := 120 * weibull_draw
      avg_wrap_up_time := 60
      arrival_time := now
      answer_time := none
      customer_id := customer_id
      handled_by := none
      duration := 0
      hold_count := 0
      hold_duration := 0
      wait_time := 0
      _status := PyVal.pynone }
  match Contact.contactTypeSet c0 contact_type with
  | (_, some e) => Except.error e
  | (c1, none) =>
    match Contact.statusSet c1 (PyVal.str "arrival") with
    | (_, some e) => Except.error e
    | (c2, none) => Except.ok c2

/-- A concrete `Contact` as produced by
`Contact.init 0 1 (str "call") 1 1 1`, used as a test fixture. -/
def sampleContact : Contact :=
  { id := 1
    _contact_type := PyVal.str "call"
    _skill := PyVal.pynone
    avg_handle_time := 300
    avg_hold_time := 30
    hold_probability := 1
    abandon_timing := 120
    avg_wrap_up_time := 60
    arrival_time := 0
    answer_time := none
    customer_id := 1
    handled_by := none
    duration := 0
    hold_count := 0
    hold_duration := 0
    wait_time := 0
    _status := PyVal.str "arrival" }

unseal Rat.mul Rat.add Rat.sub Rat.inv in
/-- Cross-check: the fixture is exactly what the constructor produces. -/
theorem sampleContact_is_init :
    (Contact.init 0 1 (PyVal.str "call") 1 1 1).toOption =
      some sampleContact := by
  decide

/-- A valid `PyVal` for an agent status is one of the five status strings;
in particular it is a string, hence unequal (under Python `==`) to any enum
member. -/
theorem isValidStatus_str (v : PyVal) (h : Agent.isValidStatus v = true) :
    ∃ s : String, v = PyVal.str s := by
  cases v with
  | str s => exact ⟨s, rfl⟩
  | agentStatus m => simp [Agent.isValidStatus, AgentStatus.members, pyEq] at h
  | contactStatus m => simp [Agent.isValidStatus, AgentStatus.members, pyEq] at h
  | contactType m => simp [Agent.isValidStatus, AgentStatus.members, pyEq] at h
  | pynone => simp [Agent.isValidStatus, AgentStatus.members, pyEq] at h

/-- Claim C5: assigning a status or contact-type value outside the
enumerated variant set raises `ValueError` synchronously and leaves the
prior state untouched (stored status and, for agents, `last_status_change`
keep their values), while every accepted agent status assignment stores the
value and stamps `last_status_change` with the current virtual time,
raising nothing. -/
theorem claim5_validation_rejects_and_stamps (a : Agent) (c : Contact)
    (v : PyVal) (now : ℚ) :
    (Agent.isValidStatus v = false →
      Agent.statusSet a v now = (a, false, some PyExn.valueError)) ∧
    (Agent.isValidStatus v = true →
      Agent.statusSet a v now =
        ({ a with _status := v, last_status_change := now }, false, none)) ∧
    (Contact.isValidStatus v = false →
      Contact.statusSet c v = (c, some PyExn.valueError)) ∧
    (Contact.isValidContactType v = false →
      Contact.contactTypeSet c v = (c, some PyExn.valueError)) := by
  refine ⟨?_, ?_, ?_, ?_⟩
  · intro h
    simp [Agent.statusSet, h]
  · intro h
    obtain ⟨s, rfl⟩ := isValidStatus_str v h
    simp [Agent.statusSet, h, pyEq]
  · intro h
    simp [Contact.statusSet, h]
  · intro h
    simp [Contact.contactTypeSet, h]

/-- Witness for C5 at concrete inputs: the string `bogus` is invalid and
is rejected on both entities without touching state, and the accepted
assignment of `busy` at time 7 stamps `last_status_change = 7`. -/
theorem claim5_validation_rejects_and_stamps_witness :
    Agent.statusSet (Agent.init 0 1) (PyVal.str "bogus") 7 =
      (Agent.init 0 1, false, some PyExn.valueError) ∧
    Agent.statusSet (Agent.init 0 1) (PyVal.str "busy") 7 =
      ({ Agent.init 0 1 with
          _status := PyVal.str "busy"
          last_status_change := 7 }, false, none) ∧
    Contact.statusSet sampleContact (PyVal.str "bogus") =
      (sampleContact, some PyExn.valueError) ∧
    Contact.contactTypeSet sampleContact (PyVal.str "fax") =
      (sampleContact, some PyExn.valueError) := by
  refine ⟨?_, ?_, ?_, ?_⟩
  · exact (claim5_validation_rejects_and_stamps (Agent.init 0 1) sampleContact
      (PyVal.str "bogus") 7).1 (by decide)
  · exact (claim5_validation_rejects_and_stamps (Agent.init 0 1) sampleContact
      (PyVal.str "busy") 7).2.1 (by decide)
  · exact (claim5_validation_rejects_and_stamps (Agent.init 0 1) sampleContact
      (PyVal.str "bogus") 7).2.2.1 (by decide)
  · exact (claim5_validation_rejects_and_stamps (Agent.init 0 1) sampleContact
      (PyVal.str "fax") 7).2.2.2 (by decide)

/-- The `Contact.answer` (contact.py lines 263-277): sets `answer_time = now`,
`wait_time = now - arrival_time`, sets the agent status to `busy`
through the agent setter, sets `handled_by` to the agent and the contact
status to `in_progress` through the contact setter.  An exception from
the agent setter would propagate before the later assignments. -/
def Contact.answer (c : Contact) (agent : Agent) (now : ℚ) :
    Contact × Agent × Option PyExn :=
  let c1 : Contact := { c with answer_time := some now,
                               wait_time := now - c.arrival_time }
  let r := Agent.statusSet agent (PyVal.str "busy") now
  match r.2.2 with
  | some e => (c1, r.1, some e)
  | none =>
    let c2 : Contact := { c1 with handled_by := some r.1 }
    let r2 := Contact.statusSet c2 (PyVal.str "in_progress")
    (r2.1, r.1, r2.2)

/-- Claim C7: for every contact answered by an agent at virtual time `now`,
`answer` sets `answer_time = now`, `wait_time = now - arrival_time`, sets
the agent status to BUSY (the accepted `busy` value, stamping its
`last_status_change`), sets the contact status to IN_PROGRESS, sets
`handled_by` to the assigned agent, and raises nothing. -/
theorem claim7_answer_sets_fields (c : Contact) (agent : Agent) (now : ℚ) :
    (Contact.answer c agent now).1.answer_time = some now ∧
    (Contact.answer c agent now).1.wait_time = now - c.arrival_time ∧
    (Contact.answer c agent now).2.1._status =
      PyVal.str AgentStatus.BUSY.value ∧
    (Contact.answer c agent now).2.1.last_status_change = now ∧
    (Contact.answer c agent now).1._status =
      PyVal.str ContactStatus.IN_PROGRESS.value ∧
    (Contact.answer c agent now).1.handled_by =
      some (Contact.answer c agent now).2.1 ∧
    (Contact.answer c agent now).2.2 = none := by
  refine ⟨rfl, rfl, rfl, rfl, rfl, rfl, rfl⟩

/-- The `ContactCenter.request_agent` (contact_center.py lines 81-92): filter
`agent_list` by `a.status == Agent.AgentStatus.AVAILABLE` (comparison
against the enum *member*), and if any remain, return
`min(available_agents, key=lambda a: a.last_status_change)`; the Python
`min` keeps the first element on ties, so the fold below replaces the
running minimum only on a strictly smaller key.  With no available agent
the function falls through and returns `None`. -/
def ContactCenter.request_agent (agent_list : List Agent) : Option Agent :=
  let available_agents := agent_list.filter
    (fun a => pyEq a._status (PyVal.agentStatus AgentStatus.AVAILABLE))
  match available_agents with
  | [] => none
  | a :: rest =>
    some (rest.foldl
      (fun best x =>
        if x.last_status_change < best.last_status_change then x else best) a)

/-- An agent whose status was set to `available` through the accepted
setter at time 5: the stored status is the *string* `available`. -/
def availableStringAgent : Agent :=
  (Agent.statusSet (Agent.init 0 1) (PyVal.str "available") 5).1

/-- Claim C3: `request_agent` is claimed to return an AVAILABLE agent
whenever one exists.  Counterexample on the code: an agent whose status
was assigned the accepted AVAILABLE value through the setter stores the
string `available`, and `request_agent` compares stored statuses against
the enum member `Agent.AgentStatus.AVAILABLE`, which a string never equals
in Python — so the roster consisting of that single AVAILABLE agent yields
no agent at all. -/
theorem claim3_available_string_agent_not_returned :
    Agent.isValidStatus (PyVal.str "available") = true ∧
    availableStringAgent._status = PyVal.str "available" ∧
    ContactCenter.request_agent [availableStringAgent] = none := by
  refine ⟨rfl, rfl, rfl⟩

/-- One iteration of the `ContactGenerator.start` loop after the
inter-arrival timeout, once the new `Contact` has been constructed
(contact_generator.py lines 66-78): request an agent; if one is available,
start `contact.handle(agent)`; otherwise append the contact — as it is at
this instant, still in its `arrival` status — to
`contact_center.contact_queue`.  Returns the queue after the iteration and
the `(contact, agent)` pair whose handle process was started, if any. -/
def ContactGenerator.generateStep (agent_list : List Agent)
    (contact_queue : List Contact) (contact : Contact) :
    List Contact × Option (Contact × Agent) :=
  match ContactCenter.request_agent agent_list with
  | some agent => (contact_queue, some (contact, agent))
  | none => (contact_queue ++ [contact], none)

/-- The `Contact.arrival` menu-navigation delay (contact.py line 176):
`max(1, random.gauss(10, 3))` seconds pass between the creation of the contact
and the moment `arrival` stamps the skill `sales` and the status `queued`. -/
def Contact.arrivalDelay (gauss_draw : ℚ) : ℚ :=
  max 1 gauss_draw

/-- The tail of `Contact.arrival` (contact.py lines 179-180), executed when
the menu-navigation timeout fires: set the skill to `sales` then the status to `queued` through the setters. -/
def Contact.arrivalStep (c : Contact) (has_center : Bool) :
    Contact × Option PyExn :=
  match Contact.skillSet c (PyVal.str "sales") has_center with
  | (_, some e) => (c, some e)
  | (c1, none) => Contact.statusSet c1 (PyVal.str "queued")

/-- A roster whose only agent has been assigned `busy` through the
setter, so no agent passes the AVAILABLE filter of `request_agent`. -/
def busyRoster : List Agent :=
  [(Agent.statusSet (Agent.init 0 0) (PyVal.str "busy") 3).1]

/-- The contact of the C4 scenario, generated at virtual time 20. -/
def arrivalContact : Option Contact :=
  (Contact.init 20 1 (PyVal.str "call") 1 1 1).toOption

/-- Claim C4: a contact is claimed to be in the queue iff its status is
QUEUED.  Counterexample on the code: when no agent passes the AVAILABLE
filter, `ContactGenerator.start` appends the freshly constructed contact to
the queue in the same instant it was created, while the contact status is
still `arrival` — `Contact.arrival` stamps `queued` only when the
menu-navigation timeout of `max(1, gauss(10, 3)) ≥ 1` virtual seconds
fires.  During that window the queue holds a contact whose status is not
QUEUED. -/
theorem claim4_queued_contact_in_arrival_status :
    (arrivalContact.map (fun c =>
      ((ContactGenerator.generateStep busyRoster [] c).1.map Contact._status,
        (ContactGenerator.generateStep busyRoster [] c).2.isNone,
        pyEq c._status (PyVal.str "queued")))) =
      some ([PyVal.str "arrival"], true, false) ∧
    (1 : ℚ) ≤ Contact.arrivalDelay 10 := by
  refine ⟨rfl, le_max_left 1 10⟩

/-- The attributes an `Agent` object carries: the instance attributes
assigned in `Agent.__init__` (agent.py lines 40-47) followed by the
class-level attributes of the `Agent` class body (the nested enum, the
`status` property and the methods). -/
def Agent.attributeNames : List String :=
  ["logger", "env", "id", "name", "skills", "_status", "last_status_change",
   "AgentStatus", "status", "_generate_name", "_start_wrap_up_timer",
   "__init__", "__str__", "__repr__"]

/-- Python attribute access `agent.proficiency` as performed by
`Contact.handle` (contact.py line 231,
`call_duration = call_duration * agent.proficiency`): it succeeds only if
the name is among the attributes of the object, otherwise Python raises
`AttributeError`. -/
def Contact.handleProficiencyRead : Except PyExn Unit :=
  if "proficiency" ∈ Agent.attributeNames then Except.ok ()
  else Except.error PyExn.attributeError

/-- Claim C6: every Agent is claimed to carry a positive `proficiency`
multiplier (nominal 1.0) by which `Contact.handle` scales the call
duration.  On the code, `Agent.__init__` never assigns a `proficiency`
attribute (and the `Agent` class defines none), so the scaling line of
`Contact.handle` raises `AttributeError` for every agent the simulator
creates — while tests/test_agent.py asserts `agent.proficiency == 1.0`. -/
theorem claim6_agent_proficiency_missing :
    ("proficiency" ∈ Agent.attributeNames) = False ∧
    Contact.handleProficiencyRead = Except.error PyExn.attributeError := by
  refine ⟨by decide, rfl⟩

/-- The `Contact.hold` (contact.py lines 279-293): before suspending for the
hold, it adds the drawn duration to `hold_duration` and increments
`hold_count` by one. -/
def Contact.hold (c : Contact) (hold_duration : ℚ) : Contact :=
  { c with hold_duration := c.hold_duration + hold_duration
           hold_count := c.hold_count + 1 }

/-- The pre-computed random draws of `Contact.handle` (contact.py lines
219-225): `gauss_handle_draw` is the `random.gauss(avg_handle_time, 90)`
sample (the code floors it at 0), `hold_duration` the
`uniform(avg_hold_time/2, avg_hold_time*2)` sample, `hold_timing_draw` the
`uniform(call_duration/2, call_duration - avg_hold_time*2)` sample (the
code floors it at 5), `wrap_up_duration` the `expovariate` sample, and
`hold_random` the `random.random()` sample of the hold decision. -/
structure HandleDraws where
  gauss_handle_draw : ℚ
  hold_duration : ℚ
  hold_timing_draw : ℚ
  wrap_up_duration : ℚ
  hold_random : ℚ
deriving DecidableEq, Repr

/-- The hold decision of `Contact.handle` (contact.py lines 234-238): a
hold is taken iff the contact type is `call`, the Bernoulli draw
`random.random() < hold_probability` succeeds, and the (proficiency-scaled)
call duration exceeds twice the drawn hold duration. -/
def Contact.holdQualifies (c : Contact) (proficiency : ℚ)
    (d : HandleDraws) : Bool :=
  pyEq c._contact_type (PyVal.str "call") &&
  decide (d.hold_random < c.hold_probability) &&
  decide ((max 0 d.gauss_handle_draw) * proficiency > d.hold_duration * 2)

/-- The hold phase of `Contact.handle` (contact.py lines 219-249), with
the timeouts elided: `call_duration = max(0, gauss(...)) * proficiency`
(`proficiency` is a parameter because `Agent.__init__` never assigns that
attribute — claim C6); if the hold qualifies, the code runs the `hold`
sub-step and then, back at the call site, increments `hold_count` and
`hold_duration` a second time (contact.py lines 242-243); otherwise the
accumulators are untouched. -/
def Contact.handleHoldPhase (c : Contact) (proficiency : ℚ)
    (d : HandleDraws) : Contact :=
  if Contact.holdQualifies c proficiency d then
    let c1 := Contact.hold c d.hold_duration
    { c1 with hold_count := c1.hold_count + 1
              hold_duration := c1.hold_duration + d.hold_duration }
  else
    c

/-- Claim C2: each hold taken is claimed to increment `hold_count` by
exactly 1 and `hold_duration` by exactly the drawn value, with the
increments made only in the hold sub-step and never also at the call site.
On the code, a qualifying hold increments both inside `hold()` and again at
the call site in `handle()`, ending at `hold_count + 2` and
`hold_duration + 2 * drawn`; the part of the claim about contacts that
never qualify does hold: their accumulators are untouched. -/
theorem claim2_hold_double_counted (c : Contact) (proficiency : ℚ)
    (d : HandleDraws) :
    (Contact.holdQualifies c proficiency d = true →
      (Contact.handleHoldPhase c proficiency d).hold_count =
          c.hold_count + 2 ∧
      (Contact.handleHoldPhase c proficiency d).hold_duration =
          c.hold_duration + 2 * d.hold_duration) ∧
    (Contact.holdQualifies c proficiency d = false →
      Contact.handleHoldPhase c proficiency d = c) := by
  constructor
  · intro h
    constructor
    · simp [Contact.handleHoldPhase, Contact.hold, h]
    · simp [Contact.handleHoldPhase, Contact.hold, h]
      ring
  · intro h
    simp [Contact.handleHoldPhase, h]

/-- The draws of the C2 witness: call duration 300, hold duration 30,
Bernoulli draw 0 (a success against `hold_probability = 1`). -/
def holdDraws : HandleDraws :=
  { gauss_handle_draw := 300
    hold_duration := 30
    hold_timing_draw := 150
    wrap_up_duration := 60
    hold_random := 0 }

unseal Rat.mul Rat.add Rat.sub Rat.inv in
/-- Witness for C2 at a concrete input: `sampleContact` (a `call` contact with
`hold_probability = 1`) with proficiency 1 and the `holdDraws` draws
qualifies for a hold, and one hold leaves `hold_count = 2` and
`hold_duration = 60` — twice what the claim allows. -/
theorem claim2_hold_double_counted_witness :
    Contact.holdQualifies sampleContact 1 holdDraws = true ∧
    (Contact.handleHoldPhase sampleContact 1 holdDraws).hold_count = 0 + 2 ∧
    (Contact.handleHoldPhase sampleContact 1 holdDraws).hold_duration =
      0 + 2 * 30 := by
  refine ⟨by decide, ?_, ?_⟩
  · exact (claim2_hold_double_counted sampleContact 1 holdDraws).1
      (by decide) |>.1
  · exact (claim2_hold_double_counted sampleContact 1 holdDraws).1
      (by decide) |>.2

/-- The queue check at the end of `Contact.handle` (contact.py lines
257-261): if the contact center queue is non-empty, `pop(0)` the head
and start `next_contact.handle(agent)` on the agent that just finished —
no call to `request_agent`.  Returns the remaining queue and the
`(contact, agent)` pair whose handle process was started, if any. -/
def Contact.handleQueueCheck (agent : Agent) (contact_queue : List Contact) :
    List Contact × Option (Contact × Agent) :=
  match contact_queue with
  | [] => ([], none)
  | next_contact :: rest => (rest, some (next_contact, agent))

/-- Claim C8: when handling ends with a non-empty queue, exactly the head
contact is popped and its handle step is started on the now-freed agent
(no routing pass), while the remaining queue is exactly the former tail —
same contacts, same relative order, statuses untouched. -/
theorem claim8_queue_head_popped (agent : Agent) (next_contact : Contact)
    (rest : List Contact) :
    Contact.handleQueueCheck agent (next_contact :: rest) =
      (rest, some (next_contact, agent)) ∧
    (Contact.handleQueueCheck agent (next_contact :: rest)).1.map
        Contact._status = rest.map Contact._status ∧
    Contact.handleQueueCheck agent [] = ([], none) := by
  refine ⟨rfl, rfl, rfl⟩

/-- The attributes a `ContactCenter` object carries: the instance
attributes assigned in `ContactCenter.__init__` (contact_center.py lines
44-71) followed by the class-level attributes.  Note `__init__` never
assigns a `contact_statistics` attribute. -/
def ContactCenter.attributeNames : List String :=
  ["logger", "env", "contact_types", "contact_rate", "handle_time",
   "hold_probability", "hold_time", "abandon_time", "agent_count", "agents",
   "agent_list", "contact_queue", "contact_generator",
   "Skills", "start", "request_agent", "__init__"]

/-- The queue-removal loop of `Contact.abandon` (contact.py lines 196-200):
scan `contact_center.contact_queue` for the first contact whose `id`
matches, remove it, and stop; if none matches, the queue is left as it
was. -/
def Contact.removeFirstById (i : Int) : List Contact → List Contact
  | [] => []
  | x :: rest =>
    if x.id == i then rest else x :: Contact.removeFirstById i rest

/-- The `Contact.abandon` (contact.py lines 182-203): set status to
`abandoned` through the setter, and — when a contact center is attached —
remove the first queue entry with the id of this contact and then fold the
contact into `contact_center.contact_statistics`; that attribute access
succeeds only if `ContactCenter` objects carry it. -/
def Contact.abandon (c : Contact) (contact_queue : List Contact)
    (has_center : Bool) : (Contact × List Contact) × Option PyExn :=
  match Contact.statusSet c (PyVal.str "abandoned") with
  | (c1, some e) => ((c1, contact_queue), some e)
  | (c1, none) =>
    if has_center then
      let q1 := Contact.removeFirstById c1.id contact_queue
      if "contact_statistics" ∈ ContactCenter.attributeNames then
        ((c1, q1), none)
      else
        ((c1, q1), some PyExn.attributeError)
    else
      ((c1, contact_queue), none)

/-- How the suspension of `Contact._start_abandon_timer` resolved. -/
inductive TimerOutcome where
  | fired
  | interrupted
deriving DecidableEq, Repr

/-- The `Contact._start_abandon_timer` (contact.py lines 158-164): if the
timeout fires, run `abandon`; if the suspension is interrupted, the
`except simpy.Interrupt` arm is `pass` — state untouched, nothing
raised. -/
def Contact.startAbandonTimerStep (c : Contact) (contact_queue : List Contact)
    (has_center : Bool) :
    TimerOutcome → (Contact × List Contact) × Option PyExn
  | TimerOutcome.fired => Contact.abandon c contact_queue has_center
  | TimerOutcome.interrupted => ((c, contact_queue), none)

/-- Removing by id leaves a queue without that id untouched. -/
theorem removeFirstById_not_mem (i : Int) (q : List Contact)
    (h : ∀ x ∈ q, x.id ≠ i) : Contact.removeFirstById i q = q := by
  induction q with
  | nil => rfl
  | cons x rest ih =>
    have hx : x.id ≠ i := h x (List.mem_cons_self x rest)
    simp only [Contact.removeFirstById, beq_iff_eq, hx, if_false]
    rw [ih (fun y hy => h y (List.mem_cons_of_mem x hy))]

/-- Claim C9: interrupting the abandonment timer is claimed to be silently
absorbed (it is: the `except` arm passes, touching nothing and raising
nothing), and abandoning a contact no longer in the queue is claimed to be
a benign no-op that does not raise.  On the code the removal loop is
indeed a no-op — no other contact is removed — but `abandon` then folds the
contact into `contact_center.contact_statistics`, an attribute
`ContactCenter.__init__` never assigns, so the abandonment raises
`AttributeError` whenever a contact center is attached. -/
theorem claim9_abandon_interrupt_and_noop (c : Contact)
    (contact_queue : List Contact) (has_center : Bool)
    (h : ∀ x ∈ contact_queue, x.id ≠ c.id) :
    Contact.startAbandonTimerStep c contact_queue has_center
        TimerOutcome.interrupted = ((c, contact_queue), none) ∧
    Contact.abandon c contact_queue true =
      (((Contact.statusSet c (PyVal.str "abandoned")).1, contact_queue),
        some PyExn.attributeError) := by
  constructor
  · rfl
  · show (({ c with _status := PyVal.str "abandoned" },
        Contact.removeFirstById c.id contact_queue),
        some PyExn.attributeError) =
      (({ c with _status := PyVal.str "abandoned" }, contact_queue),
        some PyExn.attributeError)
    rw [removeFirstById_not_mem c.id contact_queue h]

/-- Witness for C9 at a concrete input: the fixture contact against an
empty queue (vacuously, no queue entry carries its id): the interrupt is
swallowed, and the abandonment leaves the queue unchanged but raises
`AttributeError` from the missing statistics attribute. -/
theorem claim9_abandon_interrupt_and_noop_witness :
    Contact.startAbandonTimerStep sampleContact [] true
        TimerOutcome.interrupted = ((sampleContact, []), none) ∧
    Contact.abandon sampleContact [] true =
      (((Contact.statusSet sampleContact (PyVal.str "abandoned")).1, []),
        some PyExn.attributeError) :=
  claim9_abandon_interrupt_and_noop sampleContact [] true
    (by intro x hx; cases hx)

/-- The `ContactStatistics` counters as assigned by
`ContactStatistics.__init__` (contact_statistics.py lines 30-39). -/
structure ContactStatistics where
  count : Nat
  handled : Nat
  abandoned : Nat
  duration : ℚ
  hold_count : Nat
  hold_duration : ℚ
  wait_time : ℚ
deriving DecidableEq, Repr

/-- The `ContactStatistics.__init__`: all counters start at zero. -/
def ContactStatistics.init : ContactStatistics :=
  { count := 0
    handled := 0
    abandoned := 0
    duration := 0
    hold_count := 0
    hold_duration := 0
    wait_time := 0 }

/-- The `Contact.abandoned` property (contact.py lines 101-104):
`self.status == "abandoned"`. -/
def Contact.abandonedProp (c : Contact) : Bool :=
  pyEq c._status (PyVal.str "abandoned")

/-- The `ContactStatistics.add_contact` (contact_statistics.py lines 58-73). -/
def ContactStatistics.add_contact (s : ContactStatistics) (c : Contact) :
    ContactStatistics :=
  { s with
      count := s.count + 1
      abandoned := if c.abandonedProp then s.abandoned + 1 else s.abandoned
      handled := if pyEq c._status (PyVal.str "completed") then s.handled + 1
                 else s.handled
      duration := s.duration + c.duration
      hold_count := s.hold_count + c.hold_count
      hold_duration := s.hold_duration + c.hold_duration
      wait_time := s.wait_time + c.wait_time }

/-- The `ContactStatistics.abandonment_rate` (contact_statistics.py lines
75-78): `self.abandoned / self.count if self.count > 0 else 0`. -/
def ContactStatistics.abandonment_rate (s : ContactStatistics) : ℚ :=
  if s.count > 0 then (s.abandoned : ℚ) / (s.count : ℚ) else 0

/-- The `ContactStatistics.aht` (contact_statistics.py lines 80-83). -/
def ContactStatistics.aht (s : ContactStatistics) : ℚ :=
  if s.handled > 0 then s.duration / (s.handled : ℚ) else 0

/-- The `ContactStatistics.avg_hold_time` (contact_statistics.py lines
85-88). -/
def ContactStatistics.avg_hold_time (s : ContactStatistics) : ℚ :=
  if s.hold_count > 0 then s.hold_duration / (s.hold_count : ℚ) else 0

/-- The `ContactStatistics.asa` (contact_statistics.py lines 90-93). -/
def ContactStatistics.asa (s : ContactStatistics) : ℚ :=
  if s.handled > 0 then s.wait_time / (s.handled : ℚ) else 0

/-- The `AgentStatistics` counters as assigned by `AgentStatistics.__init__`
(agent_statistics.py lines 25-32). -/
structure AgentStatistics where
  handled : Nat
  duration : ℚ
  hold_count : Nat
  hold_duration : ℚ
  transfer_count : Nat
deriving DecidableEq, Repr

/-- The `AgentStatistics.__init__`: all counters start at zero. -/
def AgentStatistics.init : AgentStatistics :=
  { handled := 0
    duration := 0
    hold_count := 0
    hold_duration := 0
    transfer_count := 0 }

/-- The `AgentStatistics.add_contact` (agent_statistics.py lines 49-61). -/
def AgentStatistics.add_contact (s : AgentStatistics) (c : Contact) :
    AgentStatistics :=
  { s with
      handled := s.handled + 1
      duration := s.duration + c.duration
      hold_count := s.hold_count + c.hold_count
      hold_duration := s.hold_duration + c.hold_duration }

/-- The `AgentStatistics.aht` (agent_statistics.py lines 63-66). -/
def AgentStatistics.aht (s : AgentStatistics) : ℚ :=
  if s.handled > 0 then s.duration / (s.handled : ℚ) else 0

/-- The `AgentStatistics.avg_hold_time` (agent_statistics.py lines 68-71). -/
def AgentStatistics.avg_hold_time (s : AgentStatistics) : ℚ :=
  if s.hold_count > 0 then s.hold_duration / (s.hold_count : ℚ) else 0

/-- Claim C10: every derived statistics accessor is total at a zero
denominator — `abandonment_rate`, `aht`, `avg_hold_time` and `asa` on
`ContactStatistics`, and `aht` and `avg_hold_time` on `AgentStatistics`,
each return 0 instead of dividing when their denominator (`count`,
`handled` or `hold_count`) is zero. -/
theorem claim10_stats_total_at_zero (cs : ContactStatistics)
    (ags : AgentStatistics) :
    (cs.count = 0 → cs.abandonment_rate = 0) ∧
    (cs.handled = 0 → cs.aht = 0) ∧
    (cs.hold_count = 0 → cs.avg_hold_time = 0) ∧
    (cs.handled = 0 → cs.asa = 0) ∧
    (ags.handled = 0 → ags.aht = 0) ∧
    (ags.hold_count = 0 → ags.avg_hold_time = 0) := by
  refine ⟨?_, ?_, ?_, ?_, ?_, ?_⟩
  · intro h; simp [ContactStatistics.abandonment_rate, h]
  · intro h; simp [ContactStatistics.aht, h]
  · intro h; simp [ContactStatistics.avg_hold_time, h]
  · intro h; simp [ContactStatistics.asa, h]
  · intro h; simp [AgentStatistics.aht, h]
  · intro h; simp [AgentStatistics.avg_hold_time, h]

/-- Witness for C10 at a concrete input: the freshly initialised
accumulators have all denominators zero and every accessor returns 0. -/
theorem claim10_stats_total_at_zero_witness :
    ContactStatistics.init.abandonment_rate = 0 ∧
    ContactStatistics.init.aht = 0 ∧
    ContactStatistics.init.avg_hold_time = 0 ∧
    ContactStatistics.init.asa = 0 ∧
    AgentStatistics.init.aht = 0 ∧
    AgentStatistics.init.avg_hold_time = 0 := by
  have h := claim10_stats_total_at_zero ContactStatistics.init
    AgentStatistics.init
  exact ⟨h.1 rfl, h.2.1 rfl, h.2.2.1 rfl, h.2.2.2.1 rfl, h.2.2.2.2.1 rfl,
    h.2.2.2.2.2 rfl⟩

end Conto
